import Mathlib

/-!
Shallow embedding of the rule-evaluation and result-aggregation engine of
the Positronikal standards checker (Python package
`positronikal_standards_check`), together with theorems settling the
specification claims about it.

Conventions of the embedding:
* Python dictionaries with fixed keys become Lean structures.
* The filesystem is passed explicitly: file existence and size become a
  function `String → Option Nat` (`none` = file absent, `some n` = file of
  size `n`); a repository's recognized source files become an explicit
  `List SrcFile` in walk order.
* A category module's `validate()` call, which either returns a list of raw
  outcome records or raises, becomes `Except String (List RawResult)`.
* `logging` calls become an explicit log: functions that the claims need to
  observe logging for return a `List String` of emitted log lines.
-/

/-- Entry stored in one of the four report buckets: the
`{"check": ..., "message": ...}` dictionary appended by the
`ValidationResult.add_*` methods of `core/checker.py`. -/
structure Entry where
  check : String
  message : String
deriving DecidableEq, Repr

/-- Raw outcome record emitted by a category module before normalization:
the `{"check": ..., "status": ..., "message": ...}` dictionary of
`core/checker.py` and the four validator modules.  The status is a plain
string, exactly as in the Python source. -/
structure RawResult where
  check : String
  status : String
  message : String
deriving DecidableEq, Repr

/-- Container for validation results (`ValidationResult` in
`core/checker.py`): four ordered, append-only buckets. -/
structure ValidationResult where
  passed : List Entry
  failed : List Entry
  warnings : List Entry
  errors : List Entry
deriving DecidableEq, Repr

/-- Freshly constructed `ValidationResult` (`__init__`, `core/checker.py`
lines 24-28): all four buckets start empty. -/
def emptyResult : ValidationResult := ⟨[], [], [], []⟩

/-- Record a passing check (`add_pass`, `core/checker.py` lines 30-35).
Python's `message or "Check passed"` substitutes the default exactly when
the message is the empty string. -/
def ValidationResult.add_pass (vr : ValidationResult) (check_name message : String) :
    ValidationResult :=
  { vr with passed :=
      vr.passed ++ [⟨check_name, if message = "" then "Check passed" else message⟩] }

/-- Record a failing check (`add_fail`, `core/checker.py` lines 37-42). -/
def ValidationResult.add_fail (vr : ValidationResult) (check_name message : String) :
    ValidationResult :=
  { vr with failed := vr.failed ++ [⟨check_name, message⟩] }

/-- Record a warning (`add_warning`, `core/checker.py` lines 44-49). -/
def ValidationResult.add_warning (vr : ValidationResult) (check_name message : String) :
    ValidationResult :=
  { vr with warnings := vr.warnings ++ [⟨check_name, message⟩] }

/-- Record an error during checking (`add_error`, `core/checker.py`
lines 51-56). -/
def ValidationResult.add_error (vr : ValidationResult) (check_name message : String) :
    ValidationResult :=
  { vr with errors := vr.errors ++ [⟨check_name, message⟩] }

/-- Derived verdict (`is_passing`, `core/checker.py` lines 58-61):
`len(self.failed) == 0 and len(self.errors) == 0`. -/
def ValidationResult.is_passing (vr : ValidationResult) : Bool :=
  vr.failed.length == 0 && vr.errors.length == 0

/-- Summary dictionary returned by `get_summary` (`core/checker.py`
lines 63-72). -/
structure Summary where
  total_checks : Nat
  passed : Nat
  failed : Nat
  warnings : Nat
  errors : Nat
  is_passing : Bool
deriving DecidableEq, Repr

/-- Compute the summary of a report (`get_summary`, `core/checker.py`
lines 63-72). -/
def ValidationResult.get_summary (vr : ValidationResult) : Summary :=
  { total_checks := vr.passed.length + vr.failed.length
    passed := vr.passed.length
    failed := vr.failed.length
    warnings := vr.warnings.length
    errors := vr.errors.length
    is_passing := vr.is_passing }

/-- Normalization of one raw record into the report, as performed by the
loop body shared by `_run_file_checks`, `_run_build_checks`,
`_run_code_checks` and `_run_security_checks` (`core/checker.py`
lines 216-222 and the three identical copies): an `if/elif/elif` chain on
the status string with no `else` branch, so any other status value leaves
the report unchanged. -/
def dispatchRecord (vr : ValidationResult) (r : RawResult) : ValidationResult :=
  if r.status = "pass" then vr.add_pass r.check r.message
  else if r.status = "fail" then vr.add_fail r.check r.message
  else if r.status = "warning" then vr.add_warning r.check r.message
  else vr

/-- One `_run_<category>_checks` method of `core/checker.py`
(lines 210-276): on a successful `validate()` the records are folded into
the report one by one; if `validate()` raises, a single error entry tagged
with the category name and the exception text is recorded instead. -/
def runCategory (vr : ValidationResult) (categoryName : String)
    (outcome : Except String (List RawResult)) : ValidationResult :=
  match outcome with
  | .ok results => results.foldl dispatchRecord vr
  | .error e => vr.add_error categoryName e

/-- Forensic documentation files probed directly by the Orchestrator
(`_run_forensic_checks`, `core/checker.py` line 283). -/
def forensic_files : List String := ["METHODOLOGY.md", "VALIDATION.md", "LEGAL.md"]

/-- Loop body of `_run_forensic_checks` (`core/checker.py` lines 285-296):
one existence probe, `pass` when the file exists and `fail` otherwise.
`fexists` models `Path.exists`. -/
def forensicCheck (fexists : String → Bool) (acc : ValidationResult)
    (filename : String) : ValidationResult :=
  if fexists filename then
    acc.add_pass ("forensic_file_" ++ filename)
      ("Required forensic documentation file exists: " ++ filename)
  else
    acc.add_fail ("forensic_file_" ++ filename)
      ("Missing required forensic documentation: " ++ filename)

/-- Forensic checks (`_run_forensic_checks`, `core/checker.py`
lines 278-296): the probe loop over the forensic file catalog. -/
def runForensic (vr : ValidationResult) (fexists : String → Bool) : ValidationResult :=
  forensic_files.foldl (forensicCheck fexists) vr

/-- Full run (`check_all`, `core/checker.py` lines 155-183): file, build,
code and security checks in that order, then the forensic checks when
requested.  Each module's `validate()` outcome is passed in explicitly;
the category names are the ones the source hands to `add_error`. -/
def checkAll (vr : ValidationResult)
    (fileO buildO codeO secO : Except String (List RawResult))
    (includeForensic : Bool) (fexists : String → Bool) : ValidationResult :=
  let v₁ := runCategory vr "file_requirements" fileO
  let v₂ := runCategory v₁ "build_system" buildO
  let v₃ := runCategory v₂ "code_standards" codeO
  let v₄ := runCategory v₃ "security" secO
  if includeForensic then runForensic v₄ fexists else v₄

/-- Bucketwise concatenation of two reports.  Proof-side helper used to
state that normalization only ever appends. -/
def bucketsAppend (a b : ValidationResult) : ValidationResult :=
  ⟨a.passed ++ b.passed, a.failed ++ b.failed,
   a.warnings ++ b.warnings, a.errors ++ b.errors⟩

lemma bucketsAppend_empty (vr : ValidationResult) :
    bucketsAppend vr emptyResult = vr := by
  cases vr
  simp [bucketsAppend, emptyResult]

lemma dispatchRecord_bucketsAppend (a w : ValidationResult) (r : RawResult) :
    dispatchRecord (bucketsAppend a w) r = bucketsAppend a (dispatchRecord w r) := by
  unfold dispatchRecord ValidationResult.add_pass ValidationResult.add_fail
    ValidationResult.add_warning bucketsAppend
  split
  · simp
  · split
    · simp
    · split
      · simp
      · rfl

lemma foldl_dispatch_bucketsAppend (rs : List RawResult) (a w : ValidationResult) :
    rs.foldl dispatchRecord (bucketsAppend a w) =
      bucketsAppend a (rs.foldl dispatchRecord w) := by
  induction rs generalizing w with
  | nil => rfl
  | cons r rs ih =>
      simp only [List.foldl_cons, dispatchRecord_bucketsAppend, ih]

/-- Folding records into a report only appends: the result is the starting
report with the records' own contributions concatenated bucketwise. -/
lemma foldl_dispatch_eq (rs : List RawResult) (vr : ValidationResult) :
    rs.foldl dispatchRecord vr =
      bucketsAppend vr (rs.foldl dispatchRecord emptyResult) := by
  have h := foldl_dispatch_bucketsAppend rs vr emptyResult
  rwa [bucketsAppend_empty] at h

/-- Normalizing a whole category only appends to the report. -/
lemma runCategory_eq (vr : ValidationResult) (n : String)
    (o : Except String (List RawResult)) :
    runCategory vr n o = bucketsAppend vr (runCategory emptyResult n o) := by
  cases o with
  | ok rs => exact foldl_dispatch_eq rs vr
  | error e =>
      cases vr
      simp [runCategory, ValidationResult.add_error, bucketsAppend, emptyResult]

lemma dispatchRecord_errors (vr : ValidationResult) (r : RawResult) :
    (dispatchRecord vr r).errors = vr.errors := by
  unfold dispatchRecord ValidationResult.add_pass ValidationResult.add_fail
    ValidationResult.add_warning
  split
  · rfl
  · split
    · rfl
    · split
      · rfl
      · rfl

lemma foldl_dispatch_errors (rs : List RawResult) (vr : ValidationResult) :
    (rs.foldl dispatchRecord vr).errors = vr.errors := by
  induction rs generalizing vr with
  | nil => rfl
  | cons r rs ih => simp only [List.foldl_cons, ih, dispatchRecord_errors]

/-- C1: the derived verdict `is_passing` is true exactly when both the
failed bucket and the errors bucket are empty, and neither recording a
warning nor recording a pass changes the verdict. -/
theorem c1_is_passing_iff (vr : ValidationResult) (c m : String) :
    (vr.is_passing = true ↔ vr.failed = [] ∧ vr.errors = []) ∧
    (vr.add_warning c m).is_passing = vr.is_passing ∧
    (vr.add_pass c m).is_passing = vr.is_passing := by
  refine ⟨?_, rfl, rfl⟩
  simp [ValidationResult.is_passing, List.length_eq_zero]

/-- Loop body of `_run_file_checks` (`core/checker.py` lines 216-222) with
its logging effect made explicit.  The loop body contains no logging call
at all: each recognized status appends to its bucket and emits no log
line, and the final (absent) `else` branch neither touches the report nor
logs anything.  The only logging in `_run_<category>_checks` is the
unconditional banner before the loop and the `logger.error` call in the
exception handler, both outside the per-record loop. -/
def dispatchRecordLog (st : ValidationResult × List String) (r : RawResult) :
    ValidationResult × List String :=
  if r.status = "pass" then (st.1.add_pass r.check r.message, st.2)
  else if r.status = "fail" then (st.1.add_fail r.check r.message, st.2)
  else if r.status = "warning" then (st.1.add_warning r.check r.message, st.2)
  else st

/-- Whole of `_run_file_checks` (`core/checker.py` lines 210-225) with its
logging effect made explicit: the `logger.info` banner is emitted first,
then on success the records are folded through `dispatchRecordLog`, and on
a raised exception a single error entry is recorded and the
`logger.error` line is emitted. -/
def runFileChecksLog (vr : ValidationResult) (log : List String)
    (outcome : Except String (List RawResult)) : ValidationResult × List String :=
  match outcome with
  | .ok results => results.foldl dispatchRecordLog (vr, log ++ ["Checking file requirements..."])
  | .error e =>
      (vr.add_error "file_requirements" e,
       log ++ ["Checking file requirements...", "Error during file checks: " ++ e])

/-- C2 counterexample: feeding the dispatch path a record whose status is
outside pass/fail/warning leaves the report and the log exactly as if the
record had never been produced — the drop is silent, with no logged
warning, contradicting the claim that the rejection is not silent. -/
theorem c2_counterexample :
    runFileChecksLog emptyResult [] (.ok [⟨"custom_check", "skipped", "detail"⟩]) =
      runFileChecksLog emptyResult [] (.ok []) ∧
    dispatchRecordLog (emptyResult, []) ⟨"custom_check", "skipped", "detail"⟩ =
      (emptyResult, []) := by
  constructor
  · rfl
  · rfl

/-- C2 amended: a record whose status is outside pass/fail/warning is
ignored silently — it is never appended to any of the four report buckets,
and no log line is emitted for it. -/
theorem c2_unknown_status_silent (vr : ValidationResult) (log : List String)
    (r : RawResult) (h₁ : r.status ≠ "pass") (h₂ : r.status ≠ "fail")
    (h₃ : r.status ≠ "warning") :
    dispatchRecordLog (vr, log) r = (vr, log) ∧ dispatchRecord vr r = vr := by
  constructor
  · simp [dispatchRecordLog, h₁, h₂, h₃]
  · simp [dispatchRecord, h₁, h₂, h₃]

theorem c2_unknown_status_silent_witness :
    dispatchRecordLog (emptyResult, []) ⟨"c", "error", "m"⟩ = (emptyResult, []) ∧
    dispatchRecord emptyResult ⟨"c", "error", "m"⟩ = emptyResult :=
  c2_unknown_status_silent emptyResult [] ⟨"c", "error", "m"⟩
    (by decide) (by decide) (by decide)

lemma forensicCheck_bucketsAppend (fex : String → Bool) (a w : ValidationResult)
    (fn : String) :
    forensicCheck fex (bucketsAppend a w) fn = bucketsAppend a (forensicCheck fex w fn) := by
  unfold forensicCheck ValidationResult.add_pass ValidationResult.add_fail bucketsAppend
  split
  · simp
  · simp

lemma foldl_forensic_bucketsAppend (l : List String) (fex : String → Bool)
    (a w : ValidationResult) :
    l.foldl (forensicCheck fex) (bucketsAppend a w) =
      bucketsAppend a (l.foldl (forensicCheck fex) w) := by
  induction l generalizing w with
  | nil => rfl
  | cons fn l ih =>
      simp only [List.foldl_cons, forensicCheck_bucketsAppend, ih]

/-- Running the forensic probes only appends to the report. -/
lemma runForensic_eq (vr : ValidationResult) (fex : String → Bool) :
    runForensic vr fex = bucketsAppend vr (runForensic emptyResult fex) := by
  have h := foldl_forensic_bucketsAppend forensic_files fex vr emptyResult
  rw [bucketsAppend_empty] at h
  exact h

lemma forensicCheck_errors (fex : String → Bool) (vr : ValidationResult) (fn : String) :
    (forensicCheck fex vr fn).errors = vr.errors := by
  unfold forensicCheck ValidationResult.add_pass ValidationResult.add_fail
  split
  · rfl
  · rfl

lemma foldl_forensic_errors (l : List String) (fex : String → Bool)
    (vr : ValidationResult) :
    (l.foldl (forensicCheck fex) vr).errors = vr.errors := by
  induction l generalizing vr with
  | nil => rfl
  | cons fn l ih => simp only [List.foldl_cons, ih, forensicCheck_errors]

lemma runForensic_errors (vr : ValidationResult) (fex : String → Bool) :
    (runForensic vr fex).errors = vr.errors :=
  foldl_forensic_errors forensic_files fex vr

/-- Decomposition of a full run: the report is the bucketwise concatenation
of each category's own contribution (the result of running it alone on a
fresh report), in execution order, regardless of which categories raised. -/
lemma checkAll_decomp (fileO buildO codeO secO : Except String (List RawResult))
    (inc : Bool) (fex : String → Bool) :
    checkAll emptyResult fileO buildO codeO secO inc fex =
      bucketsAppend (bucketsAppend (bucketsAppend (bucketsAppend
        (runCategory emptyResult "file_requirements" fileO)
        (runCategory emptyResult "build_system" buildO))
        (runCategory emptyResult "code_standards" codeO))
        (runCategory emptyResult "security" secO))
        (if inc then runForensic emptyResult fex else emptyResult) := by
  have hT : runCategory (runCategory (runCategory (runCategory emptyResult
        "file_requirements" fileO) "build_system" buildO) "code_standards" codeO)
        "security" secO =
      bucketsAppend (bucketsAppend (bucketsAppend
        (runCategory emptyResult "file_requirements" fileO)
        (runCategory emptyResult "build_system" buildO))
        (runCategory emptyResult "code_standards" codeO))
        (runCategory emptyResult "security" secO) := by
    rw [runCategory_eq (runCategory (runCategory (runCategory emptyResult
      "file_requirements" fileO) "build_system" buildO) "code_standards" codeO)
      "security" secO]
    rw [runCategory_eq (runCategory (runCategory emptyResult
      "file_requirements" fileO) "build_system" buildO) "code_standards" codeO]
    rw [runCategory_eq (runCategory emptyResult "file_requirements" fileO)
      "build_system" buildO]
  simp only [checkAll]
  cases inc with
  | false =>
      simp only [Bool.false_eq_true, if_false]
      rw [hT, bucketsAppend_empty]
  | true =>
      simp only [if_true]
      rw [runForensic_eq, hT]

/-- C3: a category whose `validate()` raises with exception text `e`
contributes exactly one entry — the category name paired with the
exception text — to the errors bucket and nothing to any other bucket
(first conjunct, for an arbitrary category name, hence for each of the
four); and by the bucketwise decomposition of a full run (remaining
conjuncts), every category's contribution appears in the final report
unchanged no matter which other categories raised — so the remaining
categories of a full run still execute and contribute their outcomes. -/
theorem c3_category_error_isolated
    (fileO buildO codeO secO : Except String (List RawResult))
    (includeForensic : Bool) (fexists : String → Bool) (n e : String) :
    ((runCategory emptyResult n (.error e)).errors = [⟨n, e⟩] ∧
      (runCategory emptyResult n (.error e)).passed = [] ∧
      (runCategory emptyResult n (.error e)).failed = [] ∧
      (runCategory emptyResult n (.error e)).warnings = []) ∧
    ((checkAll emptyResult fileO buildO codeO secO includeForensic fexists).errors =
      (runCategory emptyResult "file_requirements" fileO).errors ++
        (runCategory emptyResult "build_system" buildO).errors ++
        (runCategory emptyResult "code_standards" codeO).errors ++
        (runCategory emptyResult "security" secO).errors) ∧
    ((checkAll emptyResult fileO buildO codeO secO includeForensic fexists).passed =
      (runCategory emptyResult "file_requirements" fileO).passed ++
        (runCategory emptyResult "build_system" buildO).passed ++
        (runCategory emptyResult "code_standards" codeO).passed ++
        (runCategory emptyResult "security" secO).passed ++
        (if includeForensic then (runForensic emptyResult fexists).passed else [])) ∧
    ((checkAll emptyResult fileO buildO codeO secO includeForensic fexists).failed =
      (runCategory emptyResult "file_requirements" fileO).failed ++
        (runCategory emptyResult "build_system" buildO).failed ++
        (runCategory emptyResult "code_standards" codeO).failed ++
        (runCategory emptyResult "security" secO).failed ++
        (if includeForensic then (runForensic emptyResult fexists).failed else [])) ∧
    ((checkAll emptyResult fileO buildO codeO secO includeForensic fexists).warnings =
      (runCategory emptyResult "file_requirements" fileO).warnings ++
        (runCategory emptyResult "build_system" buildO).warnings ++
        (runCategory emptyResult "code_standards" codeO).warnings ++
        (runCategory emptyResult "security" secO).warnings ++
        (if includeForensic then (runForensic emptyResult fexists).warnings else [])) := by
  refine ⟨⟨rfl, rfl, rfl, rfl⟩, ?_, ?_, ?_, ?_⟩
  · rw [checkAll_decomp]
    cases includeForensic with
    | false => simp [bucketsAppend, emptyResult]
    | true => simp [bucketsAppend, runForensic_errors, emptyResult]
  · rw [checkAll_decomp]
    cases includeForensic with
    | false => simp [bucketsAppend, emptyResult]
    | true => simp [bucketsAppend]
  · rw [checkAll_decomp]
    cases includeForensic with
    | false => simp [bucketsAppend, emptyResult]
    | true => simp [bucketsAppend]
  · rw [checkAll_decomp]
    cases includeForensic with
    | false => simp [bucketsAppend, emptyResult]
    | true => simp [bucketsAppend]

/-- C9: two full runs against the same (unmodified) repository — that is,
with the same category outcomes and the same file-existence function —
each starting from the fresh empty report that construction creates,
yield identical summary counts and identical ordered bucket contents. -/
theorem c9_idempotent_runs
    (fileO buildO codeO secO : Except String (List RawResult))
    (includeForensic : Bool) (fexists : String → Bool) :
    (checkAll emptyResult fileO buildO codeO secO includeForensic fexists).get_summary =
      (checkAll emptyResult fileO buildO codeO secO includeForensic fexists).get_summary ∧
    (checkAll emptyResult fileO buildO codeO secO includeForensic fexists).passed =
      (checkAll emptyResult fileO buildO codeO secO includeForensic fexists).passed ∧
    (checkAll emptyResult fileO buildO codeO secO includeForensic fexists).failed =
      (checkAll emptyResult fileO buildO codeO secO includeForensic fexists).failed ∧
    (checkAll emptyResult fileO buildO codeO secO includeForensic fexists).warnings =
      (checkAll emptyResult fileO buildO codeO secO includeForensic fexists).warnings ∧
    (checkAll emptyResult fileO buildO codeO secO includeForensic fexists).errors =
      (checkAll emptyResult fileO buildO codeO secO includeForensic fexists).errors :=
  ⟨rfl, rfl, rfl, rfl, rfl⟩

/-- C10: the report shared by every entry point of a checker instance is
append-only.  Each `add_*` method appends exactly one entry to exactly one
bucket and leaves the other three untouched; running a category on the
current report leaves every existing entry in place, appending that
category's contribution after it; and running the same category (with the
same outcome) a second time on the same instance duplicates its
contribution in every bucket. -/
theorem c10_report_append_only (vr : ValidationResult) (c m : String)
    (n : String) (o : Except String (List RawResult)) :
    ((vr.add_pass c m).passed =
        vr.passed ++ [⟨c, if m = "" then "Check passed" else m⟩] ∧
      (vr.add_pass c m).failed = vr.failed ∧
      (vr.add_pass c m).warnings = vr.warnings ∧
      (vr.add_pass c m).errors = vr.errors) ∧
    ((vr.add_fail c m).failed = vr.failed ++ [⟨c, m⟩] ∧
      (vr.add_fail c m).passed = vr.passed ∧
      (vr.add_fail c m).warnings = vr.warnings ∧
      (vr.add_fail c m).errors = vr.errors) ∧
    ((vr.add_warning c m).warnings = vr.warnings ++ [⟨c, m⟩] ∧
      (vr.add_warning c m).passed = vr.passed ∧
      (vr.add_warning c m).failed = vr.failed ∧
      (vr.add_warning c m).errors = vr.errors) ∧
    ((vr.add_error c m).errors = vr.errors ++ [⟨c, m⟩] ∧
      (vr.add_error c m).passed = vr.passed ∧
      (vr.add_error c m).failed = vr.failed ∧
      (vr.add_error c m).warnings = vr.warnings) ∧
    ((runCategory vr n o).passed =
        vr.passed ++ (runCategory emptyResult n o).passed ∧
      (runCategory vr n o).failed =
        vr.failed ++ (runCategory emptyResult n o).failed ∧
      (runCategory vr n o).warnings =
        vr.warnings ++ (runCategory emptyResult n o).warnings ∧
      (runCategory vr n o).errors =
        vr.errors ++ (runCategory emptyResult n o).errors) ∧
    ((runCategory (runCategory emptyResult n o) n o).passed =
        (runCategory emptyResult n o).passed ++ (runCategory emptyResult n o).passed ∧
      (runCategory (runCategory emptyResult n o) n o).failed =
        (runCategory emptyResult n o).failed ++ (runCategory emptyResult n o).failed ∧
      (runCategory (runCategory emptyResult n o) n o).warnings =
        (runCategory emptyResult n o).warnings ++ (runCategory emptyResult n o).warnings ∧
      (runCategory (runCategory emptyResult n o) n o).errors =
        (runCategory emptyResult n o).errors ++ (runCategory emptyResult n o).errors) := by
  refine ⟨⟨rfl, rfl, rfl, rfl⟩, ⟨rfl, rfl, rfl, rfl⟩, ⟨rfl, rfl, rfl, rfl⟩,
    ⟨rfl, rfl, rfl, rfl⟩, ?_, ?_⟩
  · rw [runCategory_eq vr n o]
    exact ⟨rfl, rfl, rfl, rfl⟩
  · rw [runCategory_eq (runCategory emptyResult n o) n o]
    exact ⟨rfl, rfl, rfl, rfl⟩

/-- Catalog of required files (`FileRequirementsValidator.REQUIRED_FILES`,
`core/file_requirements.py` lines 17-21), as (filename, description)
pairs in declaration order. -/
def REQUIRED_FILES : List (String × String) :=
  [("README.md", "Project documentation"),
   ("CONTRIBUTING.md", "Contribution guidelines"),
   (".gitignore", "Git ignore patterns")]

/-- Outcome that `_check_required_files` (`core/file_requirements.py`
lines 100-128) appends for one required file.  The filesystem is the
function `fs`: `fs filename = none` models `Path.exists()` returning
false, `fs filename = some n` models an existing file whose
`stat().st_size` is `n`. -/
def requiredFileOutcome (fs : String → Option Nat) (filename description : String) :
    RawResult :=
  match fs filename with
  | some size =>
      if size > 0 then
        ⟨"required_file_" ++ filename, "pass", "Required file exists: " ++ filename⟩
      else
        ⟨"required_file_" ++ filename, "warning",
          "Required file exists but is empty: " ++ filename⟩
  | none =>
      ⟨"required_file_" ++ filename, "fail",
        "Missing required file: " ++ filename ++ " (" ++ description ++ ")"⟩

/-- Whole of `_check_required_files` (`core/file_requirements.py`
lines 100-128): the loop appends exactly one record per catalog entry, in
catalog order. -/
def checkRequiredFiles (fs : String → Option Nat) : List RawResult :=
  REQUIRED_FILES.map (fun p => requiredFileOutcome fs p.1 p.2)

lemma requiredFileOutcome_check (fs : String → Option Nat) (filename description : String) :
    (requiredFileOutcome fs filename description).check = "required_file_" ++ filename := by
  unfold requiredFileOutcome
  cases fs filename with
  | none => rfl
  | some size =>
      by_cases h : size > 0
      · simp [h]
      · simp [h]

/-- C4: for every filename in the required-files catalog, the check emits
exactly one outcome for that filename, whose status is `fail` when the
file does not exist, `warning` when it exists with size zero, and `pass`
when it exists with positive size; in particular the empty-file case is
reported neither as `pass` nor as `fail`. -/
theorem c4_required_file_statuses (fs : String → Option Nat)
    (filename description : String) (h : (filename, description) ∈ REQUIRED_FILES) :
    ((checkRequiredFiles fs).countP
        (fun r => r.check == "required_file_" ++ filename)) = 1 ∧
    requiredFileOutcome fs filename description ∈ checkRequiredFiles fs ∧
    (fs filename = none →
      (requiredFileOutcome fs filename description).status = "fail") ∧
    (fs filename = some 0 →
      (requiredFileOutcome fs filename description).status = "warning" ∧
      (requiredFileOutcome fs filename description).status ≠ "pass" ∧
      (requiredFileOutcome fs filename description).status ≠ "fail") ∧
    (∀ n : Nat, fs filename = some n → 0 < n →
      (requiredFileOutcome fs filename description).status = "pass") := by
  refine ⟨?_, ?_, ?_, ?_, ?_⟩
  · simp only [checkRequiredFiles, REQUIRED_FILES, List.map_cons, List.map_nil,
      List.countP_cons, List.countP_nil, requiredFileOutcome_check]
    simp only [REQUIRED_FILES, List.mem_cons, List.not_mem_nil, or_false,
      Prod.mk.injEq] at h
    rcases h with ⟨h₁, h₂⟩ | ⟨h₁, h₂⟩ | ⟨h₁, h₂⟩
    · subst h₁; decide
    · subst h₁; decide
    · subst h₁; decide
  · simp only [REQUIRED_FILES, List.mem_cons, List.not_mem_nil, or_false,
      Prod.mk.injEq] at h
    rcases h with ⟨h₁, h₂⟩ | ⟨h₁, h₂⟩ | ⟨h₁, h₂⟩
    · subst h₁; subst h₂; simp [checkRequiredFiles, List.mem_map, REQUIRED_FILES]
    · subst h₁; subst h₂; simp [checkRequiredFiles, List.mem_map, REQUIRED_FILES]
    · subst h₁; subst h₂; simp [checkRequiredFiles, List.mem_map, REQUIRED_FILES]
  · intro hn
    simp [requiredFileOutcome, hn]
  · intro hn
    simp [requiredFileOutcome, hn]
  · intro n hn hpos
    simp [requiredFileOutcome, hn, hpos]

theorem c4_required_file_statuses_witness :
    ((("README.md", "Project documentation") ∈ REQUIRED_FILES) ∧ True) ∧
    ((checkRequiredFiles (fun _ => some 0)).countP
        (fun r => r.check == "required_file_README.md")) = 1 ∧
    (requiredFileOutcome (fun _ => some 0) "README.md"
        "Project documentation").status = "warning" := by
  have h : ("README.md", "Project documentation") ∈ REQUIRED_FILES := by
    simp [REQUIRED_FILES]
  have hmain := c4_required_file_statuses (fun _ => some 0)
    "README.md" "Project documentation" h
  exact ⟨⟨h, trivial⟩, hmain.1, (hmain.2.2.2.1 rfl).1⟩

/-- Required npm scripts (`BuildSystemValidator.REQUIRED_NPM_SCRIPTS`,
`core/build_system.py` lines 25-28), as (script name, expected value)
pairs in declaration order. -/
def REQUIRED_NPM_SCRIPTS : List (String × String) :=
  [("prepare", "husky"), ("pre-commit", "lint-staged")]

/-- Outcome that the scripts loop of `_check_npm_requirements`
(`core/build_system.py` lines 97-119) appends for one required script.
`scripts` models the parsed manifest's `scripts` mapping (the source's
`package_data.get("scripts", ...)` dictionary): `scripts name = some v`
when the script is declared with value `v`, `none` when absent. -/
def npmScriptOutcome (scripts : String → Option String)
    (script_name expected_value : String) : RawResult :=
  match scripts script_name with
  | some v =>
      if v = expected_value then
        ⟨"npm_script_" ++ script_name, "pass",
          "Required script '" ++ script_name ++ "' configured correctly"⟩
      else
        ⟨"npm_script_" ++ script_name, "warning",
          "Script '" ++ script_name ++ "' exists but value differs: expected '" ++
            expected_value ++ "', got '" ++ v ++ "'"⟩
  | none =>
      ⟨"npm_script_" ++ script_name, "fail",
        "Missing required script: " ++ script_name⟩

/-- Scripts portion of `_check_npm_requirements` (`core/build_system.py`
lines 97-119) for a manifest that parsed successfully: one record per
required script, in catalog order. -/
def checkNpmScripts (scripts : String → Option String) : List RawResult :=
  REQUIRED_NPM_SCRIPTS.map (fun p => npmScriptOutcome scripts p.1 p.2)

lemma npmScriptOutcome_check (scripts : String → Option String)
    (script_name expected_value : String) :
    (npmScriptOutcome scripts script_name expected_value).check =
      "npm_script_" ++ script_name := by
  unfold npmScriptOutcome
  cases scripts script_name with
  | none => rfl
  | some v =>
      by_cases h : v = expected_value
      · simp [h]
      · simp [h]

/-- C6: for a successfully parsed manifest and every required build script
name, the check emits exactly one outcome for that script; its status is
`pass` when the script is declared with exactly the expected value,
`warning` when it is declared with any other value, and `fail` when the
script name is absent from the scripts mapping. -/
theorem c6_npm_script_statuses (scripts : String → Option String)
    (script_name expected_value : String)
    (h : (script_name, expected_value) ∈ REQUIRED_NPM_SCRIPTS) :
    ((checkNpmScripts scripts).countP
        (fun r => r.check == "npm_script_" ++ script_name)) = 1 ∧
    npmScriptOutcome scripts script_name expected_value ∈ checkNpmScripts scripts ∧
    (scripts script_name = some expected_value →
      (npmScriptOutcome scripts script_name expected_value).status = "pass") ∧
    (∀ v, scripts script_name = some v → v ≠ expected_value →
      (npmScriptOutcome scripts script_name expected_value).status = "warning") ∧
    (scripts script_name = none →
      (npmScriptOutcome scripts script_name expected_value).status = "fail") := by
  refine ⟨?_, ?_, ?_, ?_, ?_⟩
  · simp only [checkNpmScripts, REQUIRED_NPM_SCRIPTS, List.map_cons, List.map_nil,
      List.countP_cons, List.countP_nil, npmScriptOutcome_check]
    simp only [REQUIRED_NPM_SCRIPTS, List.mem_cons, List.not_mem_nil, or_false,
      Prod.mk.injEq] at h
    rcases h with ⟨h₁, h₂⟩ | ⟨h₁, h₂⟩
    · subst h₁; decide
    · subst h₁; decide
  · simp only [REQUIRED_NPM_SCRIPTS, List.mem_cons, List.not_mem_nil, or_false,
      Prod.mk.injEq] at h
    rcases h with ⟨h₁, h₂⟩ | ⟨h₁, h₂⟩
    · subst h₁; subst h₂
      simp [checkNpmScripts, List.mem_map, REQUIRED_NPM_SCRIPTS]
    · subst h₁; subst h₂
      simp [checkNpmScripts, List.mem_map, REQUIRED_NPM_SCRIPTS]
  · intro hv
    simp [npmScriptOutcome, hv]
  · intro v hv hne
    simp [npmScriptOutcome, hv, hne]
  · intro hv
    simp [npmScriptOutcome, hv]

theorem c6_npm_script_statuses_witness :
    (("prepare", "husky") ∈ REQUIRED_NPM_SCRIPTS) ∧
    ((checkNpmScripts (fun _ => some "husky")).countP
        (fun r => r.check == "npm_script_prepare")) = 1 ∧
    (npmScriptOutcome (fun _ => some "husky") "prepare" "husky").status = "pass" := by
  have h : ("prepare", "husky") ∈ REQUIRED_NPM_SCRIPTS := by
    simp [REQUIRED_NPM_SCRIPTS]
  have hmain := c6_npm_script_statuses (fun _ => some "husky") "prepare" "husky" h
  exact ⟨h, hmain.1, hmain.2.2.1 rfl⟩

/-- Maximum line length (`CodeStandardsValidator.MAX_LINE_LENGTH`,
`core/code_standards.py` line 19). -/
def MAX_LINE_LENGTH : Nat := 79

/-- One recognized source file as seen by `CodeStandardsValidator`
(`core/code_standards.py`): `name` models `Path.name`, `suffix` models
`Path.suffix`, `rel` models `str(path.relative_to(repo_path))`, and
`content` is the file's decoded text.  The extension walk and the
vendor-directory exclusion of `_get_source_files` are upstream of every
claim below, so a check takes the already collected file list in walk
order; per-file read exceptions (logged and skipped in the source) are
not modelled. -/
structure SrcFile where
  name : String
  suffix : String
  rel : String
  content : String
deriving DecidableEq, Repr

/-- Scan a character list for a CR directly followed by an LF. -/
def hasCRLFChars : List Char → Bool
  | c₁ :: c₂ :: rest =>
      if c₁ == '\r' && c₂ == '\n' then true else hasCRLFChars (c₂ :: rest)
  | _ => false

/-- Test for Windows line endings: models the source's
`b"\r\n" in content` over the raw bytes (`_check_line_endings`,
`core/code_standards.py` line 145), expressed on the content's
characters. -/
def hasCRLF (s : String) : Bool := hasCRLFChars s.data

/-- Test for a tab character: models `"\t" in content`
(`_check_indentation`, `core/code_standards.py` line 256). -/
def hasTab (s : String) : Bool := s.data.contains '\t'

/-- Offender-list rendering shared by the aggregate fail messages:
`', '.join(xs[:5]) + ('...' if len(xs) > 5 else '')`. -/
def joinTrunc (names : List String) : String :=
  String.intercalate ", " (names.take 5) ++ (if 5 < names.length then "..." else "")

/-- Relative paths of the files containing CRLF, in walk order
(`files_with_crlf` of `_check_line_endings`). -/
def lineEndingViolators (files : List SrcFile) : List String :=
  (files.filter (fun f => hasCRLF f.content)).map (fun f => f.rel)

/-- Whole of `_check_line_endings` (`core/code_standards.py`
lines 133-164): one aggregate `fail` when any file contains CRLF, one
aggregate `pass` when none does and at least one file was checked, and no
record at all otherwise. -/
def checkLineEndings (files : List SrcFile) : List RawResult :=
  let files_with_crlf := lineEndingViolators files
  if files_with_crlf ≠ [] then
    [⟨"line_endings", "fail",
      "Files with Windows line endings (CRLF): " ++ joinTrunc files_with_crlf⟩]
  else if 0 < files.length then
    [⟨"line_endings", "pass",
      "All " ++ toString files.length ++ " source files use Unix line endings (LF)"⟩]
  else []

/-- Strip trailing newline characters: `line.rstrip("\n\r")`
(`_check_line_length`, `core/code_standards.py` line 209). -/
def rstripNL (s : String) : String :=
  String.mk ((s.data.reverse.dropWhile (fun c => c == '\n' || c == '\r')).reverse)

/-- Split a decoded file content at line terminators with Python's
universal-newline convention: `\r\n` counts as one break, and a lone `\n`
or lone `\r` each count as a break. -/
def splitLinesAux (acc : List Char) : List Char → List String
  | [] => [String.mk acc.reverse]
  | '\r' :: '\n' :: rest => String.mk acc.reverse :: splitLinesAux [] rest
  | c :: rest =>
      if c == '\n' || c == '\r' then String.mk acc.reverse :: splitLinesAux [] rest
      else splitLinesAux (c :: acc) rest

/-- Line iteration of `_check_line_length` and
`_check_trailing_whitespace`: the files are opened in Python text mode,
whose universal-newline handling recognizes `\n`, `\r\n` and lone `\r` as
line terminators (translating each to `\n`), so `enumerate(f, 1)` yields
the content split at any of the three, each line then passed through
`rstrip("\n\r")`.  When the content ends in a terminator this split
produces one extra trailing empty line, which has length 0 and no
trailing whitespace, so it can never register as a violation. -/
def splitLines (s : String) : List String := splitLinesAux [] s.data

/-- Violations one file contributes to `_check_line_length`
(`core/code_standards.py` lines 206-215): (relative path, 1-based line
number, stripped length) for every line longer than the limit. -/
def fileLineViolations (f : SrcFile) : List (String × Nat × Nat) :=
  (splitLines f.content).enum.filterMap (fun p =>
    let len := (rstripNL p.2).length
    if MAX_LINE_LENGTH < len then some (f.rel, p.1 + 1, len) else none)

/-- All line-length violations of a run, files in walk order and lines in
file order (`violations` of `_check_line_length`). -/
def lineLengthViolations (files : List SrcFile) : List (String × Nat × Nat) :=
  (files.map fileLineViolations).flatten

/-- Rendering of one line-length violation:
`f"{v['file']}:{v['line']} ({v['length']} chars)"`. -/
def violationMsg (v : String × Nat × Nat) : String :=
  v.1 ++ ":" ++ toString v.2.1 ++ " (" ++ toString v.2.2 ++ " chars)"

/-- Whole of `_check_line_length` (`core/code_standards.py`
lines 197-238). -/
def checkLineLength (files : List SrcFile) : List RawResult :=
  let violations := lineLengthViolations files
  if violations ≠ [] then
    [⟨"line_length", "fail",
      "Lines exceeding " ++ toString MAX_LINE_LENGTH ++ " characters: " ++
        String.intercalate ", " ((violations.take 5).map violationMsg) ++
        (if 5 < violations.length then "..." else "")⟩]
  else if 0 < files.length then
    [⟨"line_length", "pass",
      "All lines in " ++ toString files.length ++ " source files within " ++
        toString MAX_LINE_LENGTH ++ " character limit"⟩]
  else []

/-- Skip condition of the indentation scan (`_check_indentation`,
`core/code_standards.py` line 248): Makefiles require tabs. -/
def skipIndentation (f : SrcFile) : Bool :=
  f.name == "Makefile" || f.name == "makefile" || f.suffix == ".mk"

/-- Files the indentation scan actually examines (`files_checked` counts
exactly these). -/
def indentationChecked (files : List SrcFile) : List SrcFile :=
  files.filter (fun f => !skipIndentation f)

/-- Relative paths of the examined files containing a tab, in walk order
(`files_with_tabs` of `_check_indentation`). -/
def tabViolators (files : List SrcFile) : List String :=
  ((indentationChecked files).filter (fun f => hasTab f.content)).map (fun f => f.rel)

/-- Whole of `_check_indentation` (`core/code_standards.py`
lines 240-275). -/
def checkIndentation (files : List SrcFile) : List RawResult :=
  let files_with_tabs := tabViolators files
  if files_with_tabs ≠ [] then
    [⟨"indentation", "fail",
      "Files with tab indentation: " ++ joinTrunc files_with_tabs⟩]
  else if 0 < (indentationChecked files).length then
    [⟨"indentation", "pass",
      "All " ++ toString (indentationChecked files).length ++
        " source files use space indentation"⟩]
  else []

/-- Whether one file's content decodes as UTF-8: `_check_encoding`
(`core/code_standards.py` lines 166-195) reads each file with
`encoding="utf-8"` and records a violation on `UnicodeDecodeError`.  The
byte-level decode of the on-disk data is outside the character-level
content model, so decodability is an explicit attribute of the repository
passed alongside the file list. -/
def encodingViolators (files : List SrcFile) (decodes : SrcFile → Bool) : List String :=
  (files.filter (fun f => !decodes f)).map (fun f => f.rel)

/-- Whole of `_check_encoding` (`core/code_standards.py` lines 166-195). -/
def checkEncoding (files : List SrcFile) (decodes : SrcFile → Bool) : List RawResult :=
  let files_with_issues := encodingViolators files decodes
  if files_with_issues ≠ [] then
    [⟨"encoding", "fail",
      "Files with non-UTF-8 encoding: " ++ joinTrunc files_with_issues⟩]
  else if 0 < files.length then
    [⟨"encoding", "pass",
      "All " ++ toString files.length ++ " source files use UTF-8 encoding"⟩]
  else []

/-- Python's whitespace characters in the ASCII range, as stripped by
`str.rstrip()` with no argument (non-ASCII Unicode whitespace is not
modelled). -/
def pyWhitespace (c : Char) : Bool :=
  c == ' ' || c == '\t' || c == '\n' || c == '\r' || c == '\x0b' || c == '\x0c'

/-- Python's `line.rstrip()`: drop trailing whitespace. -/
def pyRstrip (s : String) : String :=
  String.mk ((s.data.reverse.dropWhile pyWhitespace).reverse)

/-- Relative paths of the files with at least one line whose
`line.rstrip()` differs from `line.rstrip("\n\r")` — that is, a line with
trailing whitespace before its terminator.  The source appends the file
once and breaks at the first offending line (`files_with_trailing` of
`_check_trailing_whitespace`); over the terminator-free lines of
`splitLines` the condition is `pyRstrip line != line`. -/
def trailingWSViolators (files : List SrcFile) : List String :=
  (files.filter (fun f => (splitLines f.content).any (fun l => pyRstrip l != l))).map
    (fun f => f.rel)

/-- Whole of `_check_trailing_whitespace` (`core/code_standards.py`
lines 277-308). -/
def checkTrailingWhitespace (files : List SrcFile) : List RawResult :=
  let files_with_trailing := trailingWSViolators files
  if files_with_trailing ≠ [] then
    [⟨"trailing_whitespace", "fail",
      "Files with trailing whitespace: " ++ joinTrunc files_with_trailing⟩]
  else if 0 < files.length then
    [⟨"trailing_whitespace", "pass",
      "No trailing whitespace found in " ++ toString files.length ++ " source files"⟩]
  else []

/-- C5 counterexample: on a repository containing zero recognized source
files each of the five formatting checks emits no outcome at all — not
the single aggregate pass the claim requires. -/
theorem c5_counterexample :
    checkLineEndings [] = [] ∧ checkEncoding [] (fun _ => true) = [] ∧
    checkLineLength [] = [] ∧ checkIndentation [] = [] ∧
    checkTrailingWhitespace [] = [] ∧ (checkLineEndings []).length ≠ 1 :=
  ⟨rfl, rfl, rfl, rfl, rfl, by decide⟩

/-- C5 amended, covering all five formatting properties (line endings,
encoding, line length, indentation, trailing whitespace): when the
property's scan examines at least one file and none violates the property
the check emits exactly one aggregate pass naming how many files were
checked; when at least one violation exists it emits exactly one
aggregate fail listing the first 5 offending locations with an ellipsis
marker exactly when more than 5 exist (final `joinTrunc` conjunct); and
when the scan examines zero files — an empty file list, or for the
indentation scan a repository of only Makefile-like files — it emits no
outcome at all. -/
theorem c5_aggregate_outcomes (files : List SrcFile) (decodes : SrcFile → Bool) :
    (files = [] →
      checkLineEndings files = [] ∧ checkEncoding files decodes = [] ∧
        checkLineLength files = [] ∧ checkTrailingWhitespace files = []) ∧
    (indentationChecked files = [] → checkIndentation files = []) ∧
    (files ≠ [] → lineEndingViolators files = [] →
      checkLineEndings files = [⟨"line_endings", "pass",
        "All " ++ toString files.length ++ " source files use Unix line endings (LF)"⟩]) ∧
    (lineEndingViolators files ≠ [] →
      checkLineEndings files = [⟨"line_endings", "fail",
        "Files with Windows line endings (CRLF): " ++
          joinTrunc (lineEndingViolators files)⟩]) ∧
    (files ≠ [] → encodingViolators files decodes = [] →
      checkEncoding files decodes = [⟨"encoding", "pass",
        "All " ++ toString files.length ++ " source files use UTF-8 encoding"⟩]) ∧
    (encodingViolators files decodes ≠ [] →
      checkEncoding files decodes = [⟨"encoding", "fail",
        "Files with non-UTF-8 encoding: " ++
          joinTrunc (encodingViolators files decodes)⟩]) ∧
    (files ≠ [] → lineLengthViolations files = [] →
      checkLineLength files = [⟨"line_length", "pass",
        "All lines in " ++ toString files.length ++ " source files within " ++
          toString MAX_LINE_LENGTH ++ " character limit"⟩]) ∧
    (lineLengthViolations files ≠ [] →
      checkLineLength files = [⟨"line_length", "fail",
        "Lines exceeding " ++ toString MAX_LINE_LENGTH ++ " characters: " ++
          String.intercalate ", " (((lineLengthViolations files).take 5).map violationMsg) ++
          (if 5 < (lineLengthViolations files).length then "..." else "")⟩]) ∧
    (indentationChecked files ≠ [] → tabViolators files = [] →
      checkIndentation files = [⟨"indentation", "pass",
        "All " ++ toString (indentationChecked files).length ++
          " source files use space indentation"⟩]) ∧
    (tabViolators files ≠ [] →
      checkIndentation files = [⟨"indentation", "fail",
        "Files with tab indentation: " ++ joinTrunc (tabViolators files)⟩]) ∧
    (files ≠ [] → trailingWSViolators files = [] →
      checkTrailingWhitespace files = [⟨"trailing_whitespace", "pass",
        "No trailing whitespace found in " ++ toString files.length ++ " source files"⟩]) ∧
    (trailingWSViolators files ≠ [] →
      checkTrailingWhitespace files = [⟨"trailing_whitespace", "fail",
        "Files with trailing whitespace: " ++
          joinTrunc (trailingWSViolators files)⟩]) ∧
    (∀ names : List String,
      joinTrunc names = String.intercalate ", " (names.take 5) ++
        (if 5 < names.length then "..." else "")) ∧
    MAX_LINE_LENGTH = 79 := by
  refine ⟨?_, ?_, ?_, ?_, ?_, ?_, ?_, ?_, ?_, ?_, ?_, ?_, fun _ => rfl, rfl⟩
  · intro h
    subst h
    exact ⟨rfl, rfl, rfl, rfl⟩
  · intro h
    simp [checkIndentation, tabViolators, h]
  · intro h hv
    simp [checkLineEndings, hv, List.length_pos, h]
  · intro hv
    simp [checkLineEndings, hv]
  · intro h hv
    simp [checkEncoding, hv, List.length_pos, h]
  · intro hv
    simp [checkEncoding, hv]
  · intro h hv
    simp [checkLineLength, hv, List.length_pos, h]
  · intro hv
    simp [checkLineLength, hv]
  · intro h hv
    simp [checkIndentation, hv, List.length_pos, h]
  · intro hv
    simp [checkIndentation, hv]
  · intro h hv
    simp [checkTrailingWhitespace, hv, List.length_pos, h]
  · intro hv
    simp [checkTrailingWhitespace, hv]

theorem c5_aggregate_outcomes_witness :
    (([⟨"a.py", ".py", "a.py", "ok"⟩] : List SrcFile) ≠ []) ∧
    checkLineEndings [⟨"a.py", ".py", "a.py", "ok"⟩] =
      [⟨"line_endings", "pass", "All 1 source files use Unix line endings (LF)"⟩] ∧
    checkTrailingWhitespace [⟨"a.py", ".py", "a.py", "ok"⟩] =
      [⟨"trailing_whitespace", "pass",
        "No trailing whitespace found in 1 source files"⟩] := by
  refine ⟨by simp, ?_, ?_⟩
  · exact (c5_aggregate_outcomes [⟨"a.py", ".py", "a.py", "ok"⟩] (fun _ => true)).2.2.1
      (by simp) rfl
  · exact (c5_aggregate_outcomes [⟨"a.py", ".py", "a.py", "ok"⟩]
      (fun _ => true)).2.2.2.2.2.2.2.2.2.2.1 (by simp) rfl

/-- C7: if some checked file that is not named `Makefile`/`makefile` and
not suffixed `.mk` contains a tab, the indentation check emits the
aggregate fail; while tabs confined to Makefile-like files never produce
the indentation fail, because the scan skips those files. -/
theorem c7_indentation_tabs (files : List SrcFile) :
    (∀ f, f ∈ files → skipIndentation f = false → hasTab f.content = true →
      (checkIndentation files).map RawResult.status = ["fail"]) ∧
    ((∀ f, f ∈ files → hasTab f.content = true → skipIndentation f = true) →
      ∀ rec, rec ∈ checkIndentation files → rec.status ≠ "fail") := by
  constructor
  · intro f hf hskip htab
    have hmem₁ : f ∈ indentationChecked files := by
      simp only [indentationChecked, List.mem_filter]
      exact ⟨hf, by simp [hskip]⟩
    have hmem₂ : f.rel ∈ tabViolators files := by
      simp only [tabViolators, List.mem_map]
      exact ⟨f, List.mem_filter.mpr ⟨hmem₁, htab⟩, rfl⟩
    have hne : tabViolators files ≠ [] := List.ne_nil_of_mem hmem₂
    simp [checkIndentation, hne]
  · intro hall rec hrec
    have hnil : tabViolators files = [] := by
      simp only [tabViolators, List.map_eq_nil_iff, List.filter_eq_nil_iff]
      intro f hf
      have hf₁ : f ∈ files := (List.mem_filter.mp hf).1
      have hf₂ : skipIndentation f = false := by
        have := (List.mem_filter.mp hf).2
        simpa using this
      intro htab
      have := hall f hf₁ htab
      rw [hf₂] at this
      exact Bool.false_ne_true this
    by_cases hchecked : 0 < (indentationChecked files).length
    · simp [checkIndentation, hnil, hchecked] at hrec
      subst hrec
      intro h
      simp at h
    · simp [checkIndentation, hnil, hchecked] at hrec

theorem c7_indentation_tabs_witness :
    hasTab "a\tb" = true ∧
    skipIndentation ⟨"x.py", ".py", "x.py", "a\tb"⟩ = false ∧
    (checkIndentation [⟨"x.py", ".py", "x.py", "a\tb"⟩]).map RawResult.status =
      ["fail"] := by
  refine ⟨by decide, by decide, ?_⟩
  exact (c7_indentation_tabs [⟨"x.py", ".py", "x.py", "a\tb"⟩]).1
    ⟨"x.py", ".py", "x.py", "a\tb"⟩ (by simp) (by decide) (by decide)

/-- Result of one external SAST tool invocation, as `_run_sast_tools`
(`core/security.py` lines 363-417) can observe it: the subprocess
completed with an exit code and captured output, the tool binary was not
found (`FileNotFoundError`), the run exceeded the timeout handed to
`subprocess.run` (`subprocess.TimeoutExpired`), or some other exception
was raised. -/
inductive ToolRun where
  | completed (exitCode : Int) (output : String)
  | notFound
  | timedOut
  | otherError (msg : String)
deriving DecidableEq, Repr

/-- Timeout ceiling handed to `subprocess.run` by `_run_sast_tools`
(`core/security.py` line 382): `timeout=60`. -/
def SAST_TIMEOUT : Nat := 60

/-- Python's `str.capitalize`: first character upper-cased, the rest
lower-cased. -/
def capitalizeStr (s : String) : String :=
  match s.data with
  | [] => ""
  | c :: cs => String.mk (c.toUpper :: cs.map Char.toLower)

/-- Output truncation of the SAST fail message: `f"... {output[:200]}..."`
keeps the first 200 characters and always appends the ellipsis. -/
def truncate200 (s : String) : String := String.mk (s.data.take 200) ++ "..."

/-- Outcome record that `_run_sast_tools` (`core/security.py`
lines 363-417) appends for one detected language whose SAST tool is
configured.  `runTool` models the subprocess invocation as a function of
the timeout ceiling the code passes to `subprocess.run`; the preceding
`--version` probe shares the tool binary, so its `FileNotFoundError` is
the same `notFound` observation.  Exit code 0 yields pass, any other exit
code yields fail with truncated output, and tool-not-found, timeout and
any other exception each yield a warning. -/
def sastOutcome (language tool_name : String) (runTool : Nat → ToolRun) : RawResult :=
  match runTool SAST_TIMEOUT with
  | .completed code output =>
      if code = 0 then
        ⟨"sast_" ++ language, "pass", capitalizeStr language ++ " SAST scan passed"⟩
      else
        ⟨"sast_" ++ language, "fail",
          capitalizeStr language ++ " SAST found issues: " ++ truncate200 output⟩
  | .notFound =>
      ⟨"sast_" ++ language, "warning",
        capitalizeStr language ++ " SAST tool not available: " ++ tool_name⟩
  | .timedOut =>
      ⟨"sast_" ++ language, "warning",
        capitalizeStr language ++ " SAST scan timed out"⟩
  | .otherError msg =>
      ⟨"sast_" ++ language, "warning",
        "Could not run " ++ language ++ " SAST: " ++ msg⟩

/-- C8: the SAST invocation is made with the 60-time-unit ceiling — the
outcome depends only on the tool's behaviour at that ceiling — and
exceeding the ceiling yields a warning (never a fail), a missing tool
yields a warning, and a completed run yields pass exactly for exit code 0
and fail for any non-zero exit code. -/
theorem c8_sast_statuses (language tool_name : String) (runTool : Nat → ToolRun) :
    SAST_TIMEOUT = 60 ∧
    (∀ runTool₂ : Nat → ToolRun, runTool SAST_TIMEOUT = runTool₂ SAST_TIMEOUT →
      sastOutcome language tool_name runTool = sastOutcome language tool_name runTool₂) ∧
    (runTool SAST_TIMEOUT = .timedOut →
      (sastOutcome language tool_name runTool).status = "warning" ∧
      (sastOutcome language tool_name runTool).status ≠ "fail") ∧
    (runTool SAST_TIMEOUT = .notFound →
      (sastOutcome language tool_name runTool).status = "warning") ∧
    (∀ code output, runTool SAST_TIMEOUT = .completed code output →
      (sastOutcome language tool_name runTool).status =
        (if code = 0 then "pass" else "fail")) := by
  refine ⟨rfl, ?_, ?_, ?_, ?_⟩
  · intro runTool₂ h
    unfold sastOutcome
    rw [h]
  · intro h
    unfold sastOutcome
    rw [h]
    refine ⟨rfl, ?_⟩
    intro hcontra
    simp at hcontra
  · intro h
    unfold sastOutcome
    rw [h]
  · intro code output h
    unfold sastOutcome
    rw [h]
    by_cases hc : code = 0
    · simp [hc]
    · simp [hc]

theorem c8_sast_statuses_witness :
    ((fun _ : Nat => ToolRun.timedOut) SAST_TIMEOUT = ToolRun.timedOut) ∧
    (sastOutcome "python" "bandit" (fun _ => ToolRun.timedOut)).status = "warning" :=
  ⟨rfl, ((c8_sast_statuses "python" "bandit" (fun _ => ToolRun.timedOut)).2.2.1 rfl).1⟩
